import Mathlib

/-!
# Verification of the pdf-cli fidelity-preserving text-edit engine

Shallow embedding of the core of the `pdf-cli` repository:

* `src/core/engine_manager.py` — `EngineManager.detect_font_fallback`
  (object correlator / fidelity checker), `EngineResult`, `create_audit_log`;
* `src/core/font_manager.py` — `FontManager` (font requirement tracker);
* `src/app/pdf_repo.py` — `PDFRepository.get_font_for_text_object`
  (font resolution ladder);
* `src/app/services.py` — the fallback-escalation and strict-mode tail of
  `_edit_text_all_occurrences`.

Python floats are modelled as rationals (`ℚ`), Python `int` as `ℤ`, Python
`str` as `String` (a Python `None`-able string becomes `Option String`,
with Python truthiness `bool(s)` modelled explicitly, since the source
branches on truthiness, not on `is None`).  Human-readable message strings
built by f-string formatting are abstracted to constructor tags carrying
the same data; timestamps, hashes and file paths in the audit record are
outside the model.  External library calls (`fitz.Font`, the file system)
are modelled as explicit environment parameters, so exception-raising
loads become `Option`-valued oracles.
-/

namespace PdfCli

/-- Python `needle in hay` on strings (substring containment, `"" in s` is
`True`), as a boolean on the underlying character lists. -/
def strIn (needle hay : String) : Bool :=
  go needle.data hay.data
where
  go (n : List Char) : List Char → Bool
    | [] => n.isEmpty
    | c :: rest => n.isPrefixOf (c :: rest) || go n rest

/-- Python `s.replace(pat, rep, 1)`: replace the first (leftmost) occurrence
of `pat` in `s` by `rep`; `s` unchanged when `pat` does not occur. -/
def pyReplaceFirst (s pat rep : String) : String :=
  ⟨go pat.data rep.data s.data⟩
where
  go (p r : List Char) : List Char → List Char
    | [] => []
    | c :: rest =>
      if p.isPrefixOf (c :: rest) then r ++ (c :: rest).drop p.length
      else c :: go p r rest

/-- Python truthiness of an `Optional[str]`: `None` and `""` are falsy. -/
def pyTruthy : Option String → Bool
  | none => false
  | some s => s ≠ ""

/-- Computable absolute value on `ℚ`, mirroring Python `abs`. -/
def ratAbs (q : ℚ) : ℚ := if q < 0 then -q else q

/-- ASCII lower-casing of one character (all engine names are ASCII). -/
def charLower (c : Char) : Char :=
  if 65 ≤ c.toNat ∧ c.toNat ≤ 90 then Char.ofNat (c.toNat + 32) else c

/-- Python `s.lower()` restricted to ASCII, as used on engine names. -/
def pyLower (s : String) : String := ⟨s.data.map charLower⟩

/-- ASCII upper-casing of one character. -/
def charUpper (c : Char) : Char :=
  if 97 ≤ c.toNat ∧ c.toNat ≤ 122 then Char.ofNat (c.toNat - 32) else c

/-- Python `s.upper()` restricted to ASCII, as used on font names. -/
def pyUpper (s : String) : String := ⟨s.data.map charUpper⟩

/-! ## Data model (`src/core/models.py`, `src/core/engine_manager.py`) -/

/-- `core.models.TextObject` (the fields `detect_font_fallback` reads;
`color`, `align` and `rotation` are never consulted by the correlator). -/
structure TextObject where
  id : String
  page : ℤ
  content : String
  x : ℚ
  y : ℚ
  width : ℚ
  height : ℚ
  fontName : String
  fontSize : ℤ
deriving DecidableEq, Repr

/-- `engine_manager.EngineType`. -/
inductive EngineType where
  | pymupdf
  | pypdf
deriving DecidableEq, Repr

/-- `EngineType.value` (the `Enum` payload string). -/
def EngineType.value : EngineType → String
  | .pymupdf => "pymupdf"
  | .pypdf => "pypdf"

/-- The `fallback_reason` strings of `detect_font_fallback`, abstracted to
tags carrying the data interpolated into each f-string. -/
inductive FallbackReason where
  | substitutedByHelvetica (originalFont : String)
  | fontChanged (originalFont finalFont : String)
  | sizeChanged (originalSize finalSize : ℤ)
  | noCorrespondence (bestScore : ℕ)
deriving DecidableEq, Repr

/-- `engine_manager.FontComparison`. -/
structure FontComparison where
  objectId : String
  page : ℤ
  originalFont : String
  originalFontSize : ℤ
  finalFont : String
  finalFontSize : ℤ
  fontPreserved : Bool
  fontFallbackDetected : Bool
  fallbackReason : Option FallbackReason
deriving DecidableEq, Repr

/-- Python `original_font or "N/A"` (an empty font name is falsy). -/
def orNA (s : String) : String := if s = "" then "N/A" else s

/-! ## Object correlator (`EngineManager.detect_font_fallback`,
`src/core/engine_manager.py` lines 94-263) -/

/-- The expected post-edit content computed at the top of the target loop
(lines 137-144): set only when `search_term` and `new_content` are truthy
and `search_term` occurs in the original content; a partial substitution
replaces the first occurrence, a full one replaces the whole content. -/
def computeExpected (searchTerm newContent : Option String) (originalContent : String) :
    Option String :=
  if pyTruthy searchTerm ∧ pyTruthy newContent ∧
      strIn (searchTerm.getD "") originalContent then
    if searchTerm.getD "" ≠ originalContent then
      some (pyReplaceFirst originalContent (searchTerm.getD "") (newContent.getD ""))
    else
      newContent
  else
    none

/-- Content criterion (criterion 5, lines 185-199).  With a truthy expected
content: exact match +30, containment either way +15, replacement text
present +10.  Otherwise +5 when the candidate content differs from the
original and the search term is falsy or absent from the candidate. -/
def contentScore (originalContent : String) (expected searchTerm newContent : Option String)
    (m : TextObject) : ℕ :=
  if pyTruthy expected then
    if m.content = expected.getD "" then 30
    else if strIn (expected.getD "") m.content ∨ strIn m.content (expected.getD "") then 15
    else if strIn (newContent.getD "") m.content then 10
    else 0
  else
    if m.content ≠ originalContent ∧
        (¬ pyTruthy searchTerm ∨ ¬ strIn (searchTerm.getD "") m.content) then 5
    else 0

/-- Score of one post-edit candidate `m` against the pre-edit target `o`
(the body of the candidate loop, lines 150-199).  `none` models the
`continue` statements (candidate excluded): different page, or `|Δx|`
beyond twice the x-tolerance.  Tolerances are the module constants
`POSITION_X_TOLERANCE = 1.0`, `POSITION_Y_TOLERANCE = 3.0`,
`SIZE_TOLERANCE = 5.0`. -/
def candidateScore (o : TextObject) (expected searchTerm newContent : Option String)
    (m : TextObject) : Option ℕ :=
  if m.page ≠ o.page then none
  else
    let xd := ratAbs (m.x - o.x)
    let xPoints : Option ℕ :=
      if xd ≤ 1 then some 20 else if xd ≤ 2 then some 10 else none
    match xPoints with
    | none => none
    | some xs =>
      let yd := ratAbs (m.y - o.y)
      let ys : ℕ := if yd ≤ 3 then 15 else if yd ≤ 6 then 8 else 3
      let wd := ratAbs (m.width - o.width)
      let hd := ratAbs (m.height - o.height)
      let ss : ℕ :=
        if wd ≤ 5 ∧ hd ≤ 5 then 10
        else if wd ≤ 10 ∧ hd ≤ 10 then 5
        else 0
      some (10 + xs + ys + ss + contentScore o.content expected searchTerm newContent m)

/-- The best-match accumulator of the candidate loop: `best_match`/`best_score`
start at `None`/`0` and are replaced only on a strictly greater score
(line 208: `if score > best_score`), so ties keep the first candidate. -/
def selectBestAux (score : TextObject → Option ℕ) :
    List TextObject → Option TextObject → ℕ → Option TextObject × ℕ
  | [], best, bestScore => (best, bestScore)
  | m :: rest, best, bestScore =>
    match score m with
    | none => selectBestAux score rest best bestScore
    | some s =>
      if bestScore < s then selectBestAux score rest (some m) s
      else selectBestAux score rest best bestScore

/-- `best_match, best_score` after the candidate loop. -/
def selectBest (score : TextObject → Option ℕ) (modified : List TextObject) :
    Option TextObject × ℕ :=
  selectBestAux score modified none 0

/-- The iff on which `font_preserved` is set (lines 218-221). -/
def fontPreservedFlag (o m : TextObject) : Bool :=
  o.fontName = m.fontName ∧ o.fontSize = m.fontSize

/-- The `fallback_reason` ladder for an accepted match (lines 226-233),
branching exactly as the source: swap to the standard Helvetica, any other
font change with a truthy original name, then a size change. -/
def fallbackReasonFor (oFont mFont : String) (oSize mSize : ℤ) : Option FallbackReason :=
  if (mFont = "Helvetica" ∨ mFont = "helv") ∧ ¬ (oFont = "Helvetica" ∨ oFont = "helv") then
    some (.substitutedByHelvetica oFont)
  else if oFont ≠ "" ∧ mFont ≠ oFont then
    some (.fontChanged oFont mFont)
  else if oSize ≠ mSize then
    some (.sizeChanged oSize mSize)
  else
    none

/-- The `FontComparison` built for an accepted match (lines 213-246). -/
def matchedComparison (o m : TextObject) : FontComparison :=
  { objectId := m.id
    page := m.page
    originalFont := orNA o.fontName
    originalFontSize := o.fontSize
    finalFont := orNA m.fontName
    finalFontSize := m.fontSize
    fontPreserved := fontPreservedFlag o m
    fontFallbackDetected := ! fontPreservedFlag o m
    fallbackReason :=
      if fontPreservedFlag o m then none
      else fallbackReasonFor o.fontName m.fontName o.fontSize m.fontSize }

/-- The conservative `FontComparison` when no candidate reaches the
acceptance score (lines 247-261). -/
def noCorrespondenceComparison (o : TextObject) (bestScore : ℕ) : FontComparison :=
  { objectId := o.id
    page := o.page
    originalFont := orNA o.fontName
    originalFontSize := o.fontSize
    finalFont := "N/A"
    finalFontSize := 0
    fontPreserved := false
    fontFallbackDetected := true
    fallbackReason := some (.noCorrespondence bestScore) }

/-- One iteration of the outer target loop: correlate one pre-edit target
against all post-edit candidates and emit its verdict (lines 133-261).
The acceptance test is line 213: `if best_match and best_score >= 30`. -/
def detectOne (searchTerm newContent : Option String) (modified : List TextObject)
    (o : TextObject) : FontComparison :=
  let expected := computeExpected searchTerm newContent o.content
  let best := selectBest (candidateScore o expected searchTerm newContent) modified
  match best.1 with
  | some m => if 30 ≤ best.2 then matchedComparison o m else noCorrespondenceComparison o best.2
  | none => noCorrespondenceComparison o best.2

/-- `EngineManager.detect_font_fallback`: filter the pre-edit runs to the
edited targets (line 125) and emit one comparison per target. -/
def detectFontFallback (originalObjects modified : List TextObject)
    (targetIds : List String) (searchTerm newContent : Option String) :
    List FontComparison :=
  (originalObjects.filter (fun o => targetIds.contains o.id)).map
    (detectOne searchTerm newContent modified)

/-! ## Spec-side scoring (for the refinement comparison of claim C2)

Two definitions written from the specification's words rather than the
source, to be compared with `candidateScore`. -/

/-- The candidate score sum exactly as claim C2 words it: no points for being on the
same page (a different page merely excludes), and the unknown-expected `+5`
asks only that the candidate content differ from the original. -/
def claimC2Score (o : TextObject) (expected _searchTerm newContent : Option String)
    (m : TextObject) : Option ℕ :=
  if m.page ≠ o.page then none
  else
    let xd := ratAbs (m.x - o.x)
    let xPoints : Option ℕ :=
      if xd ≤ 1 then some 20 else if xd ≤ 2 then some 10 else none
    match xPoints with
    | none => none
    | some xs =>
      let yd := ratAbs (m.y - o.y)
      let ys : ℕ := if yd ≤ 3 then 15 else if yd ≤ 6 then 8 else 3
      let wd := ratAbs (m.width - o.width)
      let hd := ratAbs (m.height - o.height)
      let ss : ℕ :=
        if wd ≤ 5 ∧ hd ≤ 5 then 10
        else if wd ≤ 10 ∧ hd ≤ 10 then 5
        else 0
      let cs : ℕ :=
        if pyTruthy expected then
          if m.content = expected.getD "" then 30
          else if strIn (expected.getD "") m.content ∨ strIn m.content (expected.getD "") then 15
          else if strIn (newContent.getD "") m.content then 10
          else 0
        else if m.content ≠ o.content then 5 else 0
      some (xs + ys + ss + cs)

/-- Claim C2 amended: a same-page candidate additionally scores a base 10,
and the unknown-expected `+5` also requires the search text to be falsy or
absent from the candidate's content. -/
def claimC2ScoreAmended (o : TextObject) (expected searchTerm newContent : Option String)
    (m : TextObject) : Option ℕ :=
  if m.page ≠ o.page then none
  else
    let xd := ratAbs (m.x - o.x)
    let xPoints : Option ℕ :=
      if xd ≤ 1 then some 20 else if xd ≤ 2 then some 10 else none
    match xPoints with
    | none => none
    | some xs =>
      let yd := ratAbs (m.y - o.y)
      let ys : ℕ := if yd ≤ 3 then 15 else if yd ≤ 6 then 8 else 3
      let wd := ratAbs (m.width - o.width)
      let hd := ratAbs (m.height - o.height)
      let ss : ℕ :=
        if wd ≤ 5 ∧ hd ≤ 5 then 10
        else if wd ≤ 10 ∧ hd ≤ 10 then 5
        else 0
      let cs : ℕ :=
        if pyTruthy expected then
          if m.content = expected.getD "" then 30
          else if strIn (expected.getD "") m.content ∨ strIn m.content (expected.getD "") then 15
          else if strIn (newContent.getD "") m.content then 10
          else 0
        else if m.content ≠ o.content ∧
            (¬ pyTruthy searchTerm ∨ ¬ strIn (searchTerm.getD "") m.content) then 5
        else 0
      some (10 + (xs + ys + ss + cs))

/-! ## Font requirement tracker (`src/core/font_manager.py`) -/

/-- `font_manager.FontMatchQuality`. -/
inductive FontMatchQuality where
  | exact
  | similar
  | variant
  | fallback
  | missing
deriving DecidableEq, Repr

/-- `font_manager.FontRequirement` (the presentation-only fields
`download_url` and `installation_instructions` — a static URL table lookup
and a per-OS help text — are outside the model). -/
structure FontRequirement where
  fontName : String
  variant : Option String := none
  matchQuality : FontMatchQuality := .missing
  foundFont : Option String := none
  systemPath : Option String := none
  occurrences : ℕ := 1
  pages : List ℤ := []
deriving DecidableEq, Repr

/-- `FontRequirement.needs_installation`. -/
def needsInstallation (r : FontRequirement) : Bool :=
  r.matchQuality = .missing ∨ r.matchQuality = .fallback ∨ r.matchQuality = .variant

/-- `FontManager._extract_variant`: collect the style tokens present
(case-insensitively) in the font name. -/
def extractVariant (fontName : String) : Option String :=
  let u := pyUpper fontName
  let vs : List String :=
    (if strIn "BOLD" u then ["Bold"] else []) ++
    (if strIn "ITALIC" u ∨ strIn "OBLIQUE" u then ["Italic"] else []) ++
    (if strIn "NARROW" u then ["Narrow"] else []) ++
    (if strIn "CONDENSED" u then ["Condensed"] else []) ++
    (if strIn "LIGHT" u then ["Light"] else []) ++
    (if strIn "BLACK" u then ["Black"] else [])
  if vs.isEmpty then none else some (String.intercalate " " vs)

/-- The `FontManager` state: `requirements` and `missing_fonts`.  In the
source `missing_fonts` stores references aliasing the `requirements`
entries; only its emptiness and length are consulted, so it is modelled by
the list of the font names appended to it. -/
structure FontManagerState where
  requirements : List FontRequirement := []
  missingFonts : List String := []
deriving DecidableEq, Repr

/-- The update applied to an existing requirement by `add_requirement`
(lines 158-163): bump the occurrence count and append an unseen page. -/
def bumpRequirement (r : FontRequirement) (page : Option ℤ) : FontRequirement :=
  { r with
    occurrences := r.occurrences + 1
    pages :=
      match page with
      | some p => if r.pages.contains p then r.pages else r.pages ++ [p]
      | none => r.pages }

/-- Update the first requirement whose `font_name` matches, returning
`none` when no entry matches (the linear scan of lines 152-156). -/
def updateExisting (fontName : String) (page : Option ℤ) :
    List FontRequirement → Option (List FontRequirement)
  | [] => none
  | r :: rest =>
    if r.fontName = fontName then some (bumpRequirement r page :: rest)
    else (updateExisting fontName page rest).map (r :: ·)

/-- `FontManager.add_requirement`: dedupe by requested name; a first call
creates the entry (and records it among the missing fonts when it needs
installation), later calls only bump occurrences/pages. -/
def addRequirement (s : FontManagerState) (fontName : String) (foundFont : Option String)
    (matchQuality : FontMatchQuality) (systemPath : Option String) (page : Option ℤ) :
    FontManagerState :=
  match updateExisting fontName page s.requirements with
  | some reqs => { s with requirements := reqs }
  | none =>
    let req : FontRequirement :=
      { fontName := fontName
        variant := extractVariant fontName
        matchQuality := matchQuality
        foundFont := foundFont
        systemPath := systemPath
        occurrences := 1
        pages := match page with | some p => [p] | none => [] }
    { requirements := s.requirements ++ [req]
      missingFonts :=
        if needsInstallation req then s.missingFonts ++ [fontName] else s.missingFonts }

/-- The fields of a `FontRequirement` that `add_requirement` fixes at the
first call for a name: requested name, variant tags, match quality, found
font and system path (everything except occurrences and pages). -/
def reqKey (r : FontRequirement) :
    String × Option String × FontMatchQuality × Option String × Option String :=
  (r.fontName, r.variant, r.matchQuality, r.foundFont, r.systemPath)

/-- `FontManager.has_missing_fonts`. -/
def hasMissingFonts (s : FontManagerState) : Bool :=
  ¬ s.missingFonts.isEmpty

/-- `FontManager.should_block_operation`: false outside strict mode; in
strict mode, true as soon as any requirement is not an exact match. -/
def shouldBlockOperation (s : FontManagerState) (strictMode : Bool) : Bool :=
  if ¬ strictMode then false
  else s.requirements.any (fun r => r.matchQuality ≠ .exact)

/-! ## Engine results, audit log and orchestration
(`src/core/engine_manager.py` lines 46-73 and 660-716,
`src/app/services.py` lines 695-874) -/

/-- `engine_manager.EngineResult` (output path, error text and timing are
outside the model; `anyFontFallback` is the derived flag). -/
structure EngineResult where
  engine : EngineType
  success : Bool
  fontComparisons : List FontComparison
  anyFontFallback : Bool
deriving DecidableEq, Repr

/-- `EngineResult.__post_init__`: with a non-empty comparison list the
`any_font_fallback` flag is recomputed as `any(comp.font_fallback_detected)`;
an empty list keeps the default `False` (`List.any` on `[]` is also
`false`, so one expression covers both). -/
def mkEngineResult (engine : EngineType) (success : Bool)
    (fontComparisons : List FontComparison) : EngineResult :=
  { engine := engine
    success := success
    fontComparisons := fontComparisons
    anyFontFallback := fontComparisons.any (·.fontFallbackDetected) }

/-- The audit fields of `engine_manager.create_audit_log` that describe the
outcome (timestamps, paths, hashes and the md5 operation id are outside the
model). -/
structure AuditLog where
  engineAttempts : List EngineResult
  finalEngineUsed : Option String
  finalSuccess : Bool
  anyFontFallback : Bool
  fontPreservationSuccess : Bool
deriving DecidableEq, Repr

/-- `create_audit_log` (lines 694-709): the `final_*` fields read the LAST
entry of `engine_results` (`engine_results[-1]`), defaulting to
`None`/`False` on an empty list. -/
def createAuditLog (engineResults : List EngineResult) : AuditLog :=
  { engineAttempts := engineResults
    finalEngineUsed := engineResults.getLast?.map (fun r => r.engine.value)
    finalSuccess := (engineResults.getLast?.map (fun r => r.success)).getD false
    anyFontFallback := engineResults.any (·.anyFontFallback)
    fontPreservationSuccess :=
      (engineResults.getLast?.map (fun r => r.success && ! r.anyFontFallback)).getD false }

/-- Outcome of the fallback phase of `_edit_text_all_occurrences`:
the ordered attempt list, which engine's output sits at the output path,
and how many times `edit_text_with_pypdf` was invoked. -/
structure FallbackOutcome where
  engineResults : List EngineResult
  adoptedEngine : EngineType
  secondaryInvocations : ℕ
deriving DecidableEq, Repr

/-- The Fase-5 fallback phase of `_edit_text_all_occurrences`
(`services.py` lines 695-796), entered after the PyMuPDF edit saved and
committed its output.  The primary `EngineResult` is built with
`success=True` (line 718-724); when any comparison flags a fallback and the
preferred engine is `"pymupdf"` (line 729), `edit_text_with_pypdf` runs
once against a side file and its output replaces the primary output
exactly when it succeeded with no font fallback (line 756); otherwise the
primary output is kept.  The secondary's result `pypdfResult` is an input:
its computation depends on the external PyPDF2 library.  File moves are
modelled as succeeding (the `except` arms at 678 and 771 handle OS-level
failures outside the model). -/
def fallbackPhase (preferEngine : String) (primaryComparisons : List FontComparison)
    (pypdfResult : EngineResult) : FallbackOutcome :=
  let primary := mkEngineResult .pymupdf true primaryComparisons
  let fallbackDetected := primaryComparisons.any (·.fontFallbackDetected)
  if fallbackDetected ∧ pyLower preferEngine = "pymupdf" then
    if pypdfResult.success ∧ ¬ pypdfResult.anyFontFallback then
      { engineResults := [primary, pypdfResult]
        adoptedEngine := .pypdf
        secondaryInvocations := 1 }
    else
      { engineResults := [primary, pypdfResult]
        adoptedEngine := .pymupdf
        secondaryInvocations := 1 }
  else
    { engineResults := [primary]
      adoptedEngine := .pymupdf
      secondaryInvocations := 0 }

/-! ## Commit and strict-mode tail of `_edit_text_all_occurrences`
(`services.py` lines 666-693 and 835-874) -/

/-- File-system events at the caller's output path, in program order. -/
inductive FsEvent where
  | removePreexisting
  | commitOutput
  | writeAudit
  | removeOutput
deriving DecidableEq, Repr

/-- Whether a file exists at the caller's output path after a sequence of
events, starting from `pre` (whether a file pre-existed there). -/
def outputExistsAfter (pre : Bool) : List FsEvent → Bool
  | [] => pre
  | e :: rest =>
    outputExistsAfter
      (match e with
       | .removePreexisting => false
       | .commitOutput => true
       | .writeAudit => pre
       | .removeOutput => false)
      rest

/-- The tail of `_edit_text_all_occurrences` after the PyMuPDF save: commit
the result to the caller's output path (unlink an existing file, then move
the saved temp file — lines 672-676), persist the audit log (lines
835-847), and only then test the strict-fonts veto (lines 849-859): when
`strict_fonts` is set and the tracker blocks, the committed output file is
removed and a typed `PDFCliException` is raised.  Returns the event trace
and whether the typed error was raised.  File-system primitives are
modelled as succeeding. -/
def commitAndStrictFinish (preExisting strictFonts : Bool) (tracker : FontManagerState) :
    List FsEvent × Bool :=
  let commitEvents : List FsEvent :=
    (if preExisting then [.removePreexisting] else []) ++ [.commitOutput, .writeAudit]
  if strictFonts ∧ shouldBlockOperation tracker true then
    (commitEvents ++ [.removeOutput], true)
  else
    (commitEvents, false)

/-! ## Font resolution ladder (`PDFRepository.get_font_for_text_object`,
`src/app/pdf_repo.py` lines 435-595) -/

/-- The slice of `models.ExtractedFont` the ladder reads: `font_file_path`
(`Optional[str]`, truthiness-tested at line 455). -/
structure ExtractedFont where
  fontFilePath : Option String
deriving DecidableEq, Repr

/-- The external world of the ladder.  `fitz.Font(fontfile=p)` and
`fitz.Font(name)` can each raise, modelled as `Option`-valued oracles over
an abstract handle type `ℕ`; `_find_system_font` scans platform font
directories, modelled as an oracle from the requested name to the ordered
path list it returns. -/
structure FontEnv where
  loadFile : String → Option ℕ
  loadName : String → Option ℕ
  systemFontPaths : String → List String

/-- First font file among `paths` that `fitz.Font(fontfile=...)` accepts
(the `for font_path in font_paths` loop, lines 469-480). -/
def firstLoadableFile (env : FontEnv) : List String → Option ℕ
  | [] => none
  | p :: rest =>
    match env.loadFile p with
    | some f => some f
    | none => firstLoadableFile env rest

/-- The curated mapping of strategy 3 (lines 491-511); the boolean
`needs_bold` companion never alters the loaded font, because the inner
re-load at line 524 fires only for `mapped_name == "helv"`, which the
table always pairs with `needs_bold=False`. -/
def fontMapping (fontName : String) : Option String :=
  if fontName = "ArialMT" then some "helv"
  else if fontName = "Arial" then some "helv"
  else if fontName = "ArialNarrow" then some "helv"
  else if fontName = "Arial-Bold" then some "hebo"
  else if fontName = "ArialNarrow-Bold" then some "hebo"
  else if fontName = "Arial-Black" then some "hebo"
  else if fontName = "Times" then some "tiro"
  else if fontName = "Times-Roman" then some "tiro"
  else if fontName = "TimesNewRoman" then some "tiro"
  else if fontName = "Times-Bold" then some "tibd"
  else if fontName = "Times-BoldItalic" then some "tibii"
  else if fontName = "Times-Italic" then some "tiit"
  else if fontName = "Courier" then some "cour"
  else if fontName = "Courier-Bold" then some "cobo"
  else if fontName = "Courier-Oblique" then some "coit"
  else if fontName = "Courier-BoldOblique" then some "cobit"
  else none

/-- Strategy 4 (lines 532-589): family detection on the upper-cased name.
Each candidate base-14 code is tried in order; a failed load falls through
to the next.  The Courier guard keeps Python's precedence:
`("BOLD" and "OBLIQUE") or "ITALIC"`. -/
def patternCandidates (fontName : String) : List String :=
  let u := pyUpper fontName
  (if strIn "ARIAL" u then
    (if strIn "BOLD" u ∨ strIn "BLACK" u then ["hebo"] else []) ++ ["helv"]
   else []) ++
  (if strIn "TIMES" u then
    (if strIn "BOLD" u ∧ strIn "ITALIC" u then ["tibii"] else []) ++
    (if strIn "BOLD" u then ["tibd"] else []) ++
    (if strIn "ITALIC" u then ["tiit"] else []) ++ ["tiro"]
   else []) ++
  (if strIn "COURIER" u then
    (if (strIn "BOLD" u ∧ strIn "OBLIQUE" u) ∨ strIn "ITALIC" u then ["cobit"] else []) ++
    (if strIn "BOLD" u then ["cobo"] else []) ++
    (if strIn "OBLIQUE" u ∨ strIn "ITALIC" u then ["coit"] else []) ++ ["cour"]
   else [])

/-- First base-14 code in `codes` that loads. -/
def firstLoadableName (env : FontEnv) : List String → Option ℕ
  | [] => none
  | c :: rest =>
    match env.loadName c with
    | some f => some f
    | none => firstLoadableName env rest

/-- `PDFRepository.get_font_for_text_object`: the nested try/except ladder,
written as the source's chain of early returns.  Every library call is
guarded, so the function itself never raises; when even the final
Helvetica load fails it returns `(none, "none")` (line 595). -/
def getFontForTextObject (env : FontEnv) (fontName : String)
    (fontsDict : String → Option ExtractedFont) : Option ℕ × String :=
  -- Strategy 1: embedded font file extracted from the PDF (lines 454-462)
  let embedded : Option ℕ :=
    match fontsDict fontName with
    | some ef =>
      if pyTruthy ef.fontFilePath then env.loadFile (ef.fontFilePath.getD "") else none
    | none => none
  match embedded with
  | some f => (some f, "extracted")
  | none =>
    -- Strategy 2: system font files, then a direct name load (lines 464-488)
    let system : Option ℕ :=
      if fontName ≠ "" then
        match firstLoadableFile env (env.systemFontPaths fontName) with
        | some f => some f
        | none => env.loadName fontName
      else none
    match system with
    | some f => (some f, "system")
    | none =>
      -- Strategy 3: curated mapping (lines 490-530)
      let mapped : Option ℕ :=
        match fontMapping fontName with
        | some code => env.loadName code
        | none => none
      match mapped with
      | some f => (some f, "fallback")
      | none =>
        -- Strategy 4: family patterns (lines 532-589)
        match firstLoadableName env (patternCandidates fontName) with
        | some f => (some f, "fallback")
        | none =>
          -- Last resort: plain Helvetica (lines 591-595)
          match env.loadName "helv" with
          | some f => (some f, "fallback")
          | none => (none, "none")

/-- The ladder as an ordered strategy list, each entry `none` when that
strategy fails; used to state that the first success wins. -/
def fontStrategyLadder (env : FontEnv) (fontName : String)
    (fontsDict : String → Option ExtractedFont) : List (Option (ℕ × String)) :=
  [ (match fontsDict fontName with
     | some ef =>
       if pyTruthy ef.fontFilePath then env.loadFile (ef.fontFilePath.getD "") else none
     | none => none).map (fun f => (f, "extracted"))
  , (if fontName ≠ "" then
       match firstLoadableFile env (env.systemFontPaths fontName) with
       | some f => some f
       | none => env.loadName fontName
     else none).map (fun f => (f, "system"))
  , (match fontMapping fontName with
     | some code => env.loadName code
     | none => none).map (fun f => (f, "fallback"))
  , (firstLoadableName env (patternCandidates fontName)).map (fun f => (f, "fallback"))
  , (env.loadName "helv").map (fun f => (f, "fallback")) ]

/-- First defined entry of a strategy list (`none` when every strategy
failed). -/
def firstSome : List (Option (ℕ × String)) → Option (ℕ × String)
  | [] => none
  | e :: rest =>
    match e with
    | some x => some x
    | none => firstSome rest

/-! ## Concrete instances used by per-claim witnesses and counterexamples -/

/-- C2: pre-edit target at the origin of page 0. -/
def oC2 : TextObject :=
  { id := "t1", page := 0, content := "SALDO TOTAL", x := 0, y := 0, width := 10, height := 10,
    fontName := "ArialMT", fontSize := 10 }

/-- C2: post-edit candidate on the same page at the same x, far away in y
and size, with unchanged content: the code scores it 33 (10 page + 20 x +
3 y), the claim's sum gives 23. -/
def mC2 : TextObject :=
  { id := "m1", page := 0, content := "SALDO TOTAL", x := 0, y := 100, width := 200, height := 200,
    fontName := "ArialMT", fontSize := 10 }

/-- C3: pre-edit target whose font name is the empty string (the
`TextObject.font_name` default). -/
def oC3 : TextObject :=
  { id := "t3", page := 0, content := "abc", x := 0, y := 0, width := 10, height := 10,
    fontName := "", fontSize := 10 }

/-- C3: perfectly positioned post-edit candidate with a changed non-generic
font name and unchanged size. -/
def mC3 : TextObject :=
  { id := "m3", page := 0, content := "xyz", x := 0, y := 0, width := 10, height := 10,
    fontName := "Arial", fontSize := 10 }

/-- C3 witness: a pre-edit target in ArialMT. -/
def oC3w : TextObject :=
  { id := "t3w", page := 0, content := "abc", x := 0, y := 0, width := 10, height := 10,
    fontName := "ArialMT", fontSize := 10 }

/-- C3 witness: its accepted candidate, swapped to Helvetica. -/
def mC3w : TextObject :=
  { id := "m3w", page := 0, content := "abc", x := 0, y := 0, width := 10, height := 10,
    fontName := "Helvetica", fontSize := 10 }

/-- C4: three tracked requirements, one of `variant` quality. -/
def trackerC4 : FontManagerState :=
  { requirements :=
      [ { fontName := "ArialMT", matchQuality := .exact }
      , { fontName := "ArialNarrow", variant := some "Narrow", matchQuality := .variant,
          foundFont := some "Arial" }
      , { fontName := "Courier", matchQuality := .exact } ]
    missingFonts := ["ArialNarrow"] }

/-- C6: pre-edit target. -/
def oC6 : TextObject :=
  { id := "t6", page := 1, content := "TOTAL", x := 100, y := 50, width := 40, height := 12,
    fontName := "ArialMT", fontSize := 10 }

/-- C6: candidate at the edge of the x-tolerance band. -/
def mC6 : TextObject :=
  { id := "m6", page := 1, content := "TOTAL", x := 102, y := 50, width := 40, height := 12,
    fontName := "ArialMT", fontSize := 10 }

/-- C9 witness: pre-edit target. -/
def oC9 : TextObject :=
  { id := "t9", page := 0, content := "LUIZ", x := 50, y := 100, width := 30, height := 11,
    fontName := "ArialMT", fontSize := 10 }

/-- C9 witness: same-page candidate with `|Δx| ≤ 1` but distant y and
unrelated content. -/
def mC9 : TextObject :=
  { id := "m9", page := 0, content := "????", x := 50.5, y := 300, width := 90, height := 44,
    fontName := "Helvetica", fontSize := 11 }

/-- C1/C7: a comparison that flags a font fallback on the primary attempt. -/
def fbComparison : FontComparison :=
  { objectId := "obj1", page := 0, originalFont := "ArialMT", originalFontSize := 10,
    finalFont := "Helvetica", finalFontSize := 10, fontPreserved := false,
    fontFallbackDetected := true,
    fallbackReason := some (.substitutedByHelvetica "ArialMT") }

/-- C1 witness: a secondary attempt that succeeded without fallback. -/
def pypdfOkC1 : EngineResult := mkEngineResult .pypdf true []

/-- C7: a secondary attempt that failed (its comparisons empty, success
false), as `edit_text_with_pypdf` returns on an exception. -/
def pypdfFailC7 : EngineResult := mkEngineResult .pypdf false []

/-- C8: a tracker holding three requirements, one of `missing` quality. -/
def trackerC8 : FontManagerState :=
  { requirements :=
      [ { fontName := "ArialMT", matchQuality := .exact }
      , { fontName := "MyriadPro", matchQuality := .missing }
      , { fontName := "Courier", matchQuality := .exact } ]
    missingFonts := ["MyriadPro"] }

/-- C10 witness: one already-tracked requirement of `variant` quality. -/
def trackerC10 : FontManagerState :=
  { requirements :=
      [ { fontName := "ArialNarrow", variant := some "Narrow", matchQuality := .variant,
          foundFont := some "Arial7", occurrences := 1, pages := [0] } ]
    missingFonts := ["ArialNarrow"] }

/-- C5: an environment in which every font load fails. -/
def deadEnvC5 : FontEnv :=
  { loadFile := fun _ => none, loadName := fun _ => none, systemFontPaths := fun _ => [] }

/-- C5 witness: an environment in which only the base-14 loads succeed. -/
def base14EnvC5 : FontEnv :=
  { loadFile := fun _ => none
    loadName := fun c => if c = "helv" then some 7 else none
    systemFontPaths := fun _ => [] }

/-! ## Helper lemmas: the best-match accumulator -/

theorem selectBestAux_le (score : TextObject → Option ℕ) (l : List TextObject)
    (b : Option TextObject) (bs : ℕ) : bs ≤ (selectBestAux score l b bs).2 := by
  induction l generalizing b bs with
  | nil => simp [selectBestAux]
  | cons m rest ih =>
    simp only [selectBestAux]
    cases h : score m with
    | none => exact ih b bs
    | some v =>
      by_cases hv : bs < v
      · simp only [if_pos hv]
        exact le_trans (le_of_lt hv) (ih (some m) v)
      · simp only [if_neg hv]
        exact ih b bs

theorem selectBestAux_max (score : TextObject → Option ℕ) (l : List TextObject)
    (b : Option TextObject) (bs : ℕ) (m : TextObject) (v : ℕ)
    (hm : m ∈ l) (hv : score m = some v) : v ≤ (selectBestAux score l b bs).2 := by
  induction l generalizing b bs with
  | nil => simp at hm
  | cons m0 rest ih =>
    simp only [selectBestAux]
    rcases List.mem_cons.mp hm with rfl | hm'
    · rw [hv]
      by_cases hlt : bs < v
      · simp only [if_pos hlt]
        exact selectBestAux_le score rest (some m) v
      · simp only [if_neg hlt]
        exact le_trans (le_of_not_lt hlt) (selectBestAux_le score rest b bs)
    · cases h0 : score m0 with
      | none => exact ih b bs hm'
      | some v0 =>
        by_cases hlt : bs < v0
        · simp only [if_pos hlt]
          exact ih (some m0) v0 hm'
        · simp only [if_neg hlt]
          exact ih b bs hm'

theorem selectBestAux_eq (score : TextObject → Option ℕ) (l : List TextObject)
    (b : Option TextObject) (bs : ℕ) (mo : Option TextObject) (s : ℕ)
    (h : selectBestAux score l b bs = (mo, s)) :
    (mo = b ∧ s = bs) ∨
    ∃ l1 m l2, l = l1 ++ m :: l2 ∧ mo = some m ∧ score m = some s ∧ bs < s ∧
      ∀ m' ∈ l1, ∀ v, score m' = some v → v < s := by
  induction l generalizing b bs with
  | nil =>
    left
    simpa [selectBestAux, Prod.ext_iff, eq_comm] using h
  | cons m0 rest ih =>
    simp only [selectBestAux] at h
    cases h0 : score m0 with
    | none =>
      rw [h0] at h
      rcases ih b bs h with hL | ⟨l1, m, l2, hsplit, hmo, hsc, hlt, hfirst⟩
      · exact Or.inl hL
      · refine Or.inr ⟨m0 :: l1, m, l2, by simp [hsplit], hmo, hsc, hlt, ?_⟩
        intro m' hm' v hv
        rcases List.mem_cons.mp hm' with rfl | hm''
        · rw [h0] at hv; cases hv
        · exact hfirst m' hm'' v hv
    | some v0 =>
      rw [h0] at h
      dsimp only at h
      by_cases hlt0 : bs < v0
      · rw [if_pos hlt0] at h
        rcases ih (some m0) v0 h with ⟨hmo, hs⟩ | ⟨l1, m, l2, hsplit, hmo, hsc, hlt, hfirst⟩
        · subst hs
          exact Or.inr ⟨[], m0, rest, rfl, hmo, h0, hlt0, by simp⟩
        · refine Or.inr ⟨m0 :: l1, m, l2, by simp [hsplit], hmo, hsc,
            lt_trans hlt0 hlt, ?_⟩
          intro m' hm' v hv
          rcases List.mem_cons.mp hm' with rfl | hm''
          · rw [h0] at hv
            cases hv
            exact hlt
          · exact hfirst m' hm'' v hv
      · rw [if_neg hlt0] at h
        rcases ih b bs h with hL | ⟨l1, m, l2, hsplit, hmo, hsc, hlt, hfirst⟩
        · exact Or.inl hL
        · refine Or.inr ⟨m0 :: l1, m, l2, by simp [hsplit], hmo, hsc, hlt, ?_⟩
          intro m' hm' v hv
          rcases List.mem_cons.mp hm' with rfl | hm''
          · rw [h0] at hv
            cases hv
            exact lt_of_le_of_lt (le_of_not_lt hlt0) hlt
          · exact hfirst m' hm'' v hv

theorem selectBest_max (score : TextObject → Option ℕ) (mods : List TextObject)
    (m : TextObject) (v : ℕ) (hm : m ∈ mods) (hv : score m = some v) :
    v ≤ (selectBest score mods).2 :=
  selectBestAux_max score mods none 0 m v hm hv

theorem selectBest_eq_some (score : TextObject → Option ℕ) (mods : List TextObject)
    (m : TextObject) (s : ℕ) (h : selectBest score mods = (some m, s)) :
    score m = some s ∧
    ∃ l1 l2, mods = l1 ++ m :: l2 ∧ ∀ m' ∈ l1, ∀ v, score m' = some v → v < s := by
  rcases selectBestAux_eq score mods none 0 (some m) s h with ⟨hmo, _⟩ | h'
  · cases hmo
  · obtain ⟨l1, m', l2, hsplit, hmo, hsc, _, hfirst⟩ := h'
    obtain rfl : m' = m := by injection hmo.symm
    exact ⟨hsc, l1, l2, hsplit, hfirst⟩

theorem selectBest_none (score : TextObject → Option ℕ) (mods : List TextObject)
    (s : ℕ) (h : selectBest score mods = (none, s)) : s = 0 := by
  rcases selectBestAux_eq score mods none 0 none s h with ⟨_, hs⟩ | ⟨_, _, _, _, hmo, _⟩
  · exact hs
  · cases hmo

/-! ## Helper lemmas: candidate scoring and verdicts -/

theorem candidateScore_some (o : TextObject) (e st nc : Option String) (m : TextObject)
    (v : ℕ) (h : candidateScore o e st nc m = some v) :
    m.page = o.page ∧ ratAbs (m.x - o.x) ≤ 2 ∧ 23 ≤ v := by
  simp only [candidateScore] at h
  by_cases hp : m.page = o.page
  · refine ⟨hp, ?_⟩
    rw [if_neg (by simp [hp])] at h
    by_cases h1 : ratAbs (m.x - o.x) ≤ 1
    · rw [if_pos h1] at h
      dsimp only at h
      refine ⟨le_trans h1 (by norm_num), ?_⟩
      split at h <;> split at h <;>
        · obtain rfl : _ = v := Option.some.inj h
          omega
    · rw [if_neg h1] at h
      by_cases h2 : ratAbs (m.x - o.x) ≤ 2
      · rw [if_pos h2] at h
        dsimp only at h
        refine ⟨h2, ?_⟩
        split at h <;> split at h <;>
          · obtain rfl : _ = v := Option.some.inj h
            omega
      · rw [if_neg h2] at h
        cases h
  · rw [if_pos (by simp [hp])] at h
    cases h

theorem candidateScore_close (o : TextObject) (e st nc : Option String) (m : TextObject)
    (hp : m.page = o.page) (hx : ratAbs (m.x - o.x) ≤ 1) :
    ∃ v, candidateScore o e st nc m = some v ∧ 33 ≤ v := by
  simp only [candidateScore]
  rw [if_neg (by simp [hp]), if_pos hx]
  dsimp only
  refine ⟨_, rfl, ?_⟩
  split <;> split <;> omega

theorem detectOne_accepted (st nc : Option String) (mods : List TextObject)
    (o m : TextObject) (s : ℕ)
    (h : selectBest (candidateScore o (computeExpected st nc o.content) st nc) mods = (some m, s))
    (h30 : 30 ≤ s) : detectOne st nc mods o = matchedComparison o m := by
  simp only [detectOne, h, if_pos h30]

theorem detectOne_below (st nc : Option String) (mods : List TextObject) (o : TextObject)
    (hlt : (selectBest (candidateScore o (computeExpected st nc o.content) st nc) mods).2 < 30) :
    detectOne st nc mods o =
      noCorrespondenceComparison o
        (selectBest (candidateScore o (computeExpected st nc o.content) st nc) mods).2 := by
  simp only [detectOne]
  rcases hsel : selectBest (candidateScore o (computeExpected st nc o.content) st nc) mods
    with ⟨mo, s⟩
  rw [hsel] at hlt
  dsimp only at hlt ⊢
  cases mo with
  | none => rfl
  | some m =>
    dsimp only
    rw [if_neg (by omega)]

theorem fallbackReasonFor_ne_noCorr (oF mF : String) (oS mS : ℤ) (k : ℕ) :
    fallbackReasonFor oF mF oS mS ≠ some (.noCorrespondence k) := by
  unfold fallbackReasonFor
  split
  · simp
  · split
    · simp
    · split <;> simp

theorem matchedComparison_reason_ne_noCorr (o m : TextObject) (k : ℕ) :
    (matchedComparison o m).fallbackReason ≠ some (.noCorrespondence k) := by
  simp only [matchedComparison]
  split
  · simp
  · exact fallbackReasonFor_ne_noCorr _ _ _ _ k

/-! ## Claims -/

/-- C4: `should_block(strict)` is true exactly when strict mode is enabled
and some tracked requirement has match quality different from `Exact`; in
particular one `Variant` entry among `Exact` entries gives
`should_block(true) = true` and `should_block(false) = false`. -/
theorem C4_strict_mode_veto :
    (∀ (s : FontManagerState) (strict : Bool),
      shouldBlockOperation s strict =
        (strict && s.requirements.any (fun r => r.matchQuality ≠ FontMatchQuality.exact))) ∧
    shouldBlockOperation trackerC4 true = true ∧
    shouldBlockOperation trackerC4 false = false := by
  refine ⟨fun s strict => ?_, by decide, by decide⟩
  cases strict <;> simp [shouldBlockOperation]

/-- C6: a post-edit candidate whose `|Δx|` from the target exceeds 2.0 is
never the selected match: whatever its content, any selected candidate
satisfies `|Δx| ≤ 2`. -/
theorem C6_correlation_conservatism (st nc : Option String) (o : TextObject)
    (mods : List TextObject) (m : TextObject) (s : ℕ)
    (h : selectBest (candidateScore o (computeExpected st nc o.content) st nc) mods =
      (some m, s)) :
    ratAbs (m.x - o.x) ≤ 2 := by
  have hsc := (selectBest_eq_some _ _ _ _ h).1
  exact (candidateScore_some _ _ _ _ _ _ hsc).2.1

/-- C6 witness: with the single candidate `mC6` (at `|Δx| = 2`) selected,
the theorem yields `|Δx| ≤ 2`. -/
theorem C6_correlation_conservatism_witness : ratAbs (mC6.x - oC6.x) ≤ 2 :=
  C6_correlation_conservatism none none oC6 [mC6] mC6 45 (by
    norm_num [selectBest, selectBestAux, candidateScore, computeExpected, contentScore,
      pyTruthy, ratAbs, oC6, mC6])

/-! ### C10: the first record call fixes a font's entry -/

theorem set_of_get? {α : Type} (l : List α) (i : ℕ) (a : α) (h : l.get? i = some a) :
    l.set i a = l := by
  induction l generalizing i with
  | nil => simp at h
  | cons x xs ih =>
    cases i with
    | zero =>
      simp only [List.get?_cons_zero, Option.some.injEq] at h
      simp [h]
    | succ j =>
      simp only [List.get?_cons_succ] at h
      simp [ih j h]

theorem updateExisting_spec (n : String) (p : Option ℤ) (l : List FontRequirement)
    (h : l.any (fun r => r.fontName = n) = true) :
    ∃ i r, l.get? i = some r ∧ r.fontName = n ∧
      updateExisting n p l = some (l.set i (bumpRequirement r p)) := by
  induction l with
  | nil => simp at h
  | cons r0 rest ih =>
    by_cases h0 : r0.fontName = n
    · exact ⟨0, r0, rfl, h0, by simp [updateExisting, h0]⟩
    · have h' : rest.any (fun r => r.fontName = n) = true := by
        simpa [List.any_cons, h0] using h
      obtain ⟨i, r, hget, hname, heq⟩ := ih h'
      refine ⟨i + 1, r, by simpa using hget, hname, ?_⟩
      simp [updateExisting, h0, heq]

theorem reqKey_bump (r : FontRequirement) (p : Option ℤ) :
    reqKey (bumpRequirement r p) = reqKey r := rfl

theorem any_quality_eq_of_map_reqKey {l l' : List FontRequirement}
    (h : l.map reqKey = l'.map reqKey) :
    l.any (fun r => r.matchQuality ≠ FontMatchQuality.exact) =
      l'.any (fun r => r.matchQuality ≠ FontMatchQuality.exact) := by
  have key : ∀ l0 : List FontRequirement,
      l0.any (fun r => r.matchQuality ≠ FontMatchQuality.exact) =
        (l0.map reqKey).any (fun t => t.2.2.1 ≠ FontMatchQuality.exact) := by
    intro l0
    induction l0 with
    | nil => rfl
    | cons a t iht =>
      simp only [List.map_cons, List.any_cons, iht]
      rfl
  rw [key, key, h]

/-- C10: once a requirement exists for a font name, a later `add_requirement`
call with that name — whatever quality, found font or path it reports —
only bumps the occurrence count and extends the page set of the existing
entry: every tracked entry keeps its name, variant, quality, found font
and system path, the missing-font list is untouched, and both
`has_missing_fonts()` and `should_block(strict)` are unchanged. -/
theorem C10_first_record_fixes_entry (s : FontManagerState) (n : String)
    (f : Option String) (q : FontMatchQuality) (sp : Option String) (p : Option ℤ)
    (h : s.requirements.any (fun r => r.fontName = n) = true) :
    (∃ i r, s.requirements.get? i = some r ∧ r.fontName = n ∧
      (addRequirement s n f q sp p).requirements =
        s.requirements.set i (bumpRequirement r p)) ∧
    (addRequirement s n f q sp p).missingFonts = s.missingFonts ∧
    (addRequirement s n f q sp p).requirements.map reqKey = s.requirements.map reqKey ∧
    hasMissingFonts (addRequirement s n f q sp p) = hasMissingFonts s ∧
    ∀ strict, shouldBlockOperation (addRequirement s n f q sp p) strict =
      shouldBlockOperation s strict := by
  obtain ⟨i, r, hget, hname, heq⟩ := updateExisting_spec n p s.requirements h
  have hreq : (addRequirement s n f q sp p).requirements =
      s.requirements.set i (bumpRequirement r p) := by
    simp [addRequirement, heq]
  have hmiss : (addRequirement s n f q sp p).missingFonts = s.missingFonts := by
    simp [addRequirement, heq]
  have hmap : (addRequirement s n f q sp p).requirements.map reqKey =
      s.requirements.map reqKey := by
    have hget' : (s.requirements.map reqKey).get? i = some (reqKey r) := by
      rw [List.get?_map, hget]
      rfl
    rw [hreq, List.map_set, reqKey_bump]
    exact set_of_get? _ i _ hget'
  refine ⟨⟨i, r, hget, hname, hreq⟩, hmiss, hmap, ?_, ?_⟩
  · simp [hasMissingFonts, hmiss]
  · intro strict
    have hq := any_quality_eq_of_map_reqKey hmap
    cases strict with
    | false => simp [shouldBlockOperation]
    | true => simpa [shouldBlockOperation] using hq

/-- C10 witness: recording `ArialNarrow` a second time with a different
(exact) quality leaves the tracked entry's key fields, the missing list,
`has_missing_fonts` and `should_block` unchanged. -/
theorem C10_first_record_fixes_entry_witness :
    (∃ i r, trackerC10.requirements.get? i = some r ∧ r.fontName = "ArialNarrow" ∧
      (addRequirement trackerC10 "ArialNarrow" (some "Arial") .exact (some "/fonts/arial.ttf")
        (some 3)).requirements =
        trackerC10.requirements.set i (bumpRequirement r (some 3))) ∧
    (addRequirement trackerC10 "ArialNarrow" (some "Arial") .exact (some "/fonts/arial.ttf")
      (some 3)).missingFonts = trackerC10.missingFonts ∧
    (addRequirement trackerC10 "ArialNarrow" (some "Arial") .exact (some "/fonts/arial.ttf")
      (some 3)).requirements.map reqKey = trackerC10.requirements.map reqKey ∧
    hasMissingFonts (addRequirement trackerC10 "ArialNarrow" (some "Arial") .exact
      (some "/fonts/arial.ttf") (some 3)) = hasMissingFonts trackerC10 ∧
    ∀ strict, shouldBlockOperation (addRequirement trackerC10 "ArialNarrow" (some "Arial")
      .exact (some "/fonts/arial.ttf") (some 3)) strict =
      shouldBlockOperation trackerC10 strict :=
  C10_first_record_fixes_entry trackerC10 "ArialNarrow" (some "Arial") .exact
    (some "/fonts/arial.ttf") (some 3) (by decide)

/-! ### C1: fallback escalation -/

/-- C1: when the primary (PyMuPDF) attempt succeeds but shows
`any_fallback=true` and the caller's preferred engine is the primary, the
secondary pypdf strategy runs exactly once, both attempts stay in the
recorded list in order, and the secondary's output replaces the primary
output exactly when the secondary succeeded with `any_fallback=false`
(otherwise the primary output is kept). -/
theorem C1_fallback_escalation (preferEngine : String) (comps : List FontComparison)
    (pypdfRes : EngineResult)
    (hfb : comps.any (fun c => c.fontFallbackDetected) = true)
    (hpe : pyLower preferEngine = "pymupdf") :
    (fallbackPhase preferEngine comps pypdfRes).secondaryInvocations = 1 ∧
    (fallbackPhase preferEngine comps pypdfRes).engineResults =
      [mkEngineResult .pymupdf true comps, pypdfRes] ∧
    ((fallbackPhase preferEngine comps pypdfRes).adoptedEngine = .pypdf ↔
      pypdfRes.success = true ∧ pypdfRes.anyFontFallback = false) ∧
    (¬ (pypdfRes.success = true ∧ pypdfRes.anyFontFallback = false) →
      (fallbackPhase preferEngine comps pypdfRes).adoptedEngine = .pymupdf) := by
  simp only [fallbackPhase]
  rw [if_pos (by exact ⟨by simp [hfb], hpe⟩)]
  by_cases hok : pypdfRes.success = true ∧ pypdfRes.anyFontFallback = false
  · rw [if_pos (by simpa using hok)]
    refine ⟨rfl, rfl, ?_, ?_⟩
    · exact ⟨fun _ => hok, fun _ => rfl⟩
    · intro hc
      exact absurd hok hc
  · rw [if_neg (by simpa using hok)]
    refine ⟨rfl, rfl, ?_, fun _ => rfl⟩
    constructor
    · intro hcontr
      simp at hcontr
    · intro hc
      exact absurd hc hok

/-- C1 witness: a primary attempt with one fallback comparison and a clean
secondary: the secondary runs once, both attempts are recorded, and the
secondary is adopted. -/
theorem C1_fallback_escalation_witness :
    (fallbackPhase "pymupdf" [fbComparison] pypdfOkC1).secondaryInvocations = 1 ∧
    (fallbackPhase "pymupdf" [fbComparison] pypdfOkC1).engineResults =
      [mkEngineResult .pymupdf true [fbComparison], pypdfOkC1] ∧
    ((fallbackPhase "pymupdf" [fbComparison] pypdfOkC1).adoptedEngine = .pypdf ↔
      pypdfOkC1.success = true ∧ pypdfOkC1.anyFontFallback = false) ∧
    (¬ (pypdfOkC1.success = true ∧ pypdfOkC1.anyFontFallback = false) →
      (fallbackPhase "pymupdf" [fbComparison] pypdfOkC1).adoptedEngine = .pymupdf) :=
  C1_fallback_escalation "pymupdf" [fbComparison] pypdfOkC1 (by decide) (by decide)

/-! ### C7: the audit record's final fields -/

/-- C7 counterexample: primary succeeds with a fallback, the secondary runs
and fails, so the primary output is adopted and the operation as a whole
succeeded — yet the persisted audit names the failed secondary
(`final_engine_used = "pypdf"`, not the adopted engine) and reports
`final_success = False`. -/
theorem C7_counterexample_last_attempt_reported :
    (fallbackPhase "pymupdf" [fbComparison] pypdfFailC7).adoptedEngine = .pymupdf ∧
    (createAuditLog (fallbackPhase "pymupdf" [fbComparison] pypdfFailC7).engineResults
      ).finalEngineUsed = some "pypdf" ∧
    (createAuditLog (fallbackPhase "pymupdf" [fbComparison] pypdfFailC7).engineResults
      ).finalEngineUsed ≠
      some (EngineType.value
        (fallbackPhase "pymupdf" [fbComparison] pypdfFailC7).adoptedEngine) ∧
    (createAuditLog (fallbackPhase "pymupdf" [fbComparison] pypdfFailC7).engineResults
      ).finalSuccess = false := by
  decide

/-- C7 amended: for a non-empty attempt list the audit record's
`final_engine_used` and `final_success` report the engine and success flag
of the LAST attempt (`engine_results[-1]`) — which coincide with the
adopted engine and the overall outcome only when the last attempt was the
adopted one — alongside every attempt in `engine_attempts`. -/
theorem C7_audit_reports_last_attempt (results : List EngineResult) (h : results ≠ []) :
    (createAuditLog results).engineAttempts = results ∧
    (createAuditLog results).finalEngineUsed = some ((results.getLast h).engine.value) ∧
    (createAuditLog results).finalSuccess = (results.getLast h).success := by
  refine ⟨rfl, ?_, ?_⟩ <;>
    simp [createAuditLog, List.getLast?_eq_getLast results h]

/-- C7 witness: the amended statement evaluated on a two-attempt list. -/
theorem C7_audit_reports_last_attempt_witness :
    (createAuditLog [mkEngineResult .pymupdf true [fbComparison], pypdfFailC7]
      ).engineAttempts = [mkEngineResult .pymupdf true [fbComparison], pypdfFailC7] ∧
    (createAuditLog [mkEngineResult .pymupdf true [fbComparison], pypdfFailC7]
      ).finalEngineUsed =
      some (([mkEngineResult .pymupdf true [fbComparison], pypdfFailC7].getLast
        (by simp)).engine.value) ∧
    (createAuditLog [mkEngineResult .pymupdf true [fbComparison], pypdfFailC7]
      ).finalSuccess =
      ([mkEngineResult .pymupdf true [fbComparison], pypdfFailC7].getLast (by simp)).success :=
  C7_audit_reports_last_attempt [mkEngineResult .pymupdf true [fbComparison], pypdfFailC7]
    (by simp)

/-! ### C8: strict-mode abort -/

/-- C8 counterexample: in a strict-blocked run the output IS committed to
the caller's output path (and only afterwards removed): the event trace of
the blocked operation contains `commitOutput` before the typed error. -/
theorem C8_counterexample_commit_happens :
    (commitAndStrictFinish false true trackerC8).1 =
      [.commitOutput, .writeAudit, .removeOutput] ∧
    (commitAndStrictFinish false true trackerC8).2 = true := by
  decide

/-- C8 amended: in strict mode with a `Missing`-quality requirement among
the tracked fonts, the operation raises the typed error and — because the
already-committed output file is removed again — no file exists at the
caller's output path afterwards; the output is committed first and then
deleted, not withheld. -/
theorem C8_strict_abort_no_output (pre : Bool) (tracker : FontManagerState)
    (hmiss : ∃ r ∈ tracker.requirements, r.matchQuality = FontMatchQuality.missing) :
    (commitAndStrictFinish pre true tracker).2 = true ∧
    outputExistsAfter pre (commitAndStrictFinish pre true tracker).1 = false ∧
    (commitAndStrictFinish pre true tracker).1.contains .commitOutput = true := by
  obtain ⟨r, hr, hq⟩ := hmiss
  have hblock : shouldBlockOperation tracker true = true := by
    simp only [shouldBlockOperation, Bool.not_true]
    rw [if_neg (by simp)]
    rw [List.any_eq_true]
    exact ⟨r, hr, by simp [hq]⟩
  have hcond : (true : Bool) = true ∧ shouldBlockOperation tracker true = true :=
    ⟨rfl, hblock⟩
  cases pre with
  | false =>
    unfold commitAndStrictFinish
    rw [if_pos hcond]
    exact ⟨rfl, rfl, by decide⟩
  | true =>
    unfold commitAndStrictFinish
    rw [if_pos hcond]
    exact ⟨rfl, rfl, by decide⟩

/-- C8 witness: the amended statement on the concrete tracker with one
`Missing` font among three and no pre-existing file. -/
theorem C8_strict_abort_no_output_witness :
    (commitAndStrictFinish false true trackerC8).2 = true ∧
    outputExistsAfter false (commitAndStrictFinish false true trackerC8).1 = false ∧
    (commitAndStrictFinish false true trackerC8).1.contains .commitOutput = true :=
  C8_strict_abort_no_output false trackerC8
    ⟨{ fontName := "MyriadPro", matchQuality := .missing }, by decide, rfl⟩

/-! ### C2: the correlator's scoring -/

/-- C2 counterexample: the code's score is NOT the sum the claim lists.  A
same-page candidate at the same x but far away in y and size scores 33 in
the code (10 same-page base + 20 x + 3 y) and is accepted, while the
claim's sum gives only 23 — below the acceptance score, where the claim
would predict the no-correspondence verdict. -/
theorem C2_counterexample_scoring :
    candidateScore oC2 (computeExpected none none oC2.content) none none mC2 = some 33 ∧
    claimC2Score oC2 (computeExpected none none oC2.content) none none mC2 = some 23 ∧
    detectOne none none [mC2] oC2 = matchedComparison oC2 mC2 := by
  refine ⟨?_, ?_, ?_⟩
  · norm_num [candidateScore, computeExpected, contentScore, pyTruthy, ratAbs, oC2, mC2]
  · norm_num [claimC2Score, computeExpected, contentScore, pyTruthy, ratAbs, oC2, mC2]
  · norm_num [detectOne, selectBest, selectBestAux, candidateScore, computeExpected,
      contentScore, pyTruthy, ratAbs, oC2, mC2]

/-- C2 amended: the correlator's per-candidate score is exactly the claim's
sum PLUS a base 10 for being on the same page, with the unknown-expected
`+5` additionally requiring the search text to be falsy or absent from the
candidate; a different page or `|Δx| > 2` excludes the candidate; the
best-score accumulator keeps the first candidate on ties and returns the
maximum score; a best candidate is turned into an accepted match exactly
when its score reaches 30, and otherwise the no-correspondence verdict is
emitted. -/
theorem C2_scoring_amended :
    (∀ (o : TextObject) (e st nc : Option String) (m : TextObject),
      candidateScore o e st nc m = claimC2ScoreAmended o e st nc m) ∧
    (∀ (score : TextObject → Option ℕ) (mods : List TextObject) (m : TextObject) (v : ℕ),
      m ∈ mods → score m = some v → v ≤ (selectBest score mods).2) ∧
    (∀ (score : TextObject → Option ℕ) (mods : List TextObject) (m : TextObject) (s : ℕ),
      selectBest score mods = (some m, s) →
      score m = some s ∧
      ∃ l1 l2, mods = l1 ++ m :: l2 ∧ ∀ m' ∈ l1, ∀ v, score m' = some v → v < s) ∧
    (∀ (st nc : Option String) (mods : List TextObject) (o m : TextObject) (s : ℕ),
      selectBest (candidateScore o (computeExpected st nc o.content) st nc) mods =
        (some m, s) → 30 ≤ s → detectOne st nc mods o = matchedComparison o m) ∧
    (∀ (st nc : Option String) (mods : List TextObject) (o : TextObject),
      (selectBest (candidateScore o (computeExpected st nc o.content) st nc) mods).2 < 30 →
      detectOne st nc mods o =
        noCorrespondenceComparison o
          (selectBest (candidateScore o (computeExpected st nc o.content) st nc) mods).2) := by
  refine ⟨?_, selectBest_max, selectBest_eq_some, detectOne_accepted, detectOne_below⟩
  intro o e st nc m
  simp only [candidateScore, claimC2ScoreAmended, contentScore]
  split
  · rfl
  · split <;> (try split) <;> (try split) <;> (try split) <;>
      first
      | rfl
      | (congr 1; omega)

/-- C2 witness: the amended scoring equation at `oC2`/`mC2`, and the
acceptance conjunct applied at the concrete selection `(some mC2, 33)` —
discharging its hypotheses there. -/
theorem C2_scoring_amended_witness :
    candidateScore oC2 (computeExpected none none oC2.content) none none mC2 =
      claimC2ScoreAmended oC2 (computeExpected none none oC2.content) none none mC2 ∧
    detectOne none none [mC2] oC2 = matchedComparison oC2 mC2 := by
  refine ⟨C2_scoring_amended.1 oC2 (computeExpected none none oC2.content) none none mC2, ?_⟩
  refine C2_scoring_amended.2.2.2.1 none none [mC2] oC2 mC2 33 ?_ (by norm_num)
  norm_num [selectBest, selectBestAux, candidateScore, computeExpected, contentScore,
    pyTruthy, ratAbs, oC2, mC2]

/-! ### C3: one verdict per target, preservation iff name and size equal -/

/-- C3 counterexample: on an accepted match whose pre-edit font name is the
empty string, with a changed non-generic post-edit font and equal sizes,
the correlator reports `fallback_detected=true` but attaches NO reason:
none of the three reason branches fires (`original_font` is falsy, the new
font is not Helvetica, the sizes are equal). -/
theorem C3_counterexample_missing_reason :
    (detectOne none none [mC3] oC3).fontFallbackDetected = true ∧
    (detectOne none none [mC3] oC3).fallbackReason = none := by
  have hm : detectOne none none [mC3] oC3 = matchedComparison oC3 mC3 := by
    norm_num [detectOne, selectBest, selectBestAux, candidateScore, computeExpected,
      contentScore, pyTruthy, ratAbs, oC3, mC3, show ¬ ("xyz" = "abc") from by decide]
  rw [hm]
  constructor <;> decide

/-- C3 amended: the correlator emits exactly one verdict per pre-edit
target; below the acceptance score it emits `preserved=false`,
`fallback_detected=true` with the no-correspondence reason; on an accepted
match `preserved` is true iff font name AND size are exactly equal, with
`fallback_detected` its negation and the reason given by the source's
reason ladder — which, PROVIDED the pre-edit font name is non-empty,
always attaches a reason distinguishing a swap to the generic Helvetica
fallback, a complete font swap, or a size-only change (with an empty
pre-edit font name the reason can be absent, as the counterexample
shows). -/
theorem C3_verdicts_amended :
    (∀ (orig mods : List TextObject) (tids : List String) (st nc : Option String),
      (detectFontFallback orig mods tids st nc).length =
        (orig.filter (fun o => tids.contains o.id)).length) ∧
    (∀ (st nc : Option String) (mods : List TextObject) (o : TextObject),
      (selectBest (candidateScore o (computeExpected st nc o.content) st nc) mods).2 < 30 →
      (detectOne st nc mods o).fontPreserved = false ∧
      (detectOne st nc mods o).fontFallbackDetected = true ∧
      (detectOne st nc mods o).fallbackReason =
        some (.noCorrespondence
          (selectBest (candidateScore o (computeExpected st nc o.content) st nc) mods).2)) ∧
    (∀ (st nc : Option String) (mods : List TextObject) (o m : TextObject) (s : ℕ),
      selectBest (candidateScore o (computeExpected st nc o.content) st nc) mods =
        (some m, s) → 30 ≤ s →
      ((detectOne st nc mods o).fontPreserved = true ↔
        o.fontName = m.fontName ∧ o.fontSize = m.fontSize) ∧
      (detectOne st nc mods o).fontFallbackDetected =
        ! (detectOne st nc mods o).fontPreserved ∧
      ((detectOne st nc mods o).fontPreserved = false →
        (detectOne st nc mods o).fallbackReason =
          fallbackReasonFor o.fontName m.fontName o.fontSize m.fontSize)) ∧
    (∀ (oF mF : String) (oS mS : ℤ), oF ≠ "" → ¬ (oF = mF ∧ oS = mS) →
      ((if (mF = "Helvetica" ∨ mF = "helv") ∧ ¬ (oF = "Helvetica" ∨ oF = "helv") then
          fallbackReasonFor oF mF oS mS = some (.substitutedByHelvetica oF)
        else if mF ≠ oF then
          fallbackReasonFor oF mF oS mS = some (.fontChanged oF mF)
        else
          fallbackReasonFor oF mF oS mS = some (.sizeChanged oS mS)) ∧
        fallbackReasonFor oF mF oS mS ≠ none)) := by
  refine ⟨?_, ?_, ?_, ?_⟩
  · intro orig mods tids st nc
    simp [detectFontFallback]
  · intro st nc mods o hlt
    rw [detectOne_below st nc mods o hlt]
    exact ⟨rfl, rfl, rfl⟩
  · intro st nc mods o m s hsel h30
    rw [detectOne_accepted st nc mods o m s hsel h30]
    refine ⟨?_, rfl, ?_⟩
    · simp [matchedComparison, fontPreservedFlag]
    · intro hflag
      simp only [matchedComparison] at hflag ⊢
      rw [if_neg (by simp [hflag])]
  · intro oF mF oS mS hne hnot
    by_cases h1 : (mF = "Helvetica" ∨ mF = "helv") ∧ ¬ (oF = "Helvetica" ∨ oF = "helv")
    · rw [if_pos h1]
      unfold fallbackReasonFor
      rw [if_pos h1]
      exact ⟨rfl, by simp⟩
    · rw [if_neg h1]
      by_cases h2 : mF ≠ oF
      · rw [if_pos h2]
        unfold fallbackReasonFor
        rw [if_neg h1, if_pos ⟨hne, h2⟩]
        exact ⟨rfl, by simp⟩
      · rw [if_neg h2]
        have hmf : mF = oF := not_not.mp h2
        have hs : oS ≠ mS := fun hsz => hnot ⟨hmf.symm, hsz⟩
        unfold fallbackReasonFor
        rw [if_neg h1, if_neg (by simp [hmf]), if_pos hs]
        exact ⟨rfl, by simp⟩

/-- C3 witness: the accepted-match conjunct applied at a concrete accepted
match (ArialMT → Helvetica, score 55), and the reason-ladder conjunct
evaluated for that swap. -/
theorem C3_verdicts_amended_witness :
    ((detectOne none none [mC3w] oC3w).fontPreserved = true ↔
      oC3w.fontName = mC3w.fontName ∧ oC3w.fontSize = mC3w.fontSize) ∧
    ((detectOne none none [mC3w] oC3w).fontPreserved = false →
      (detectOne none none [mC3w] oC3w).fallbackReason =
        fallbackReasonFor oC3w.fontName mC3w.fontName oC3w.fontSize mC3w.fontSize) ∧
    fallbackReasonFor "ArialMT" "Helvetica" 10 10 =
      some (.substitutedByHelvetica "ArialMT") := by
  have h3 := C3_verdicts_amended.2.2.1 none none [mC3w] oC3w mC3w 55
    (by norm_num [selectBest, selectBestAux, candidateScore, computeExpected, contentScore,
      pyTruthy, ratAbs, oC3w, mC3w])
    (by norm_num)
  have h4 := C3_verdicts_amended.2.2.2 "ArialMT" "Helvetica" 10 10 (by decide) (by decide)
  refine ⟨h3.1, h3.2.2, ?_⟩
  have h41 := h4.1
  rwa [if_pos (by decide)] at h41

/-! ### C9: a close same-page candidate always yields an accepted match -/

/-- C9: whenever some post-edit run lies on the target's page within
`|Δx| ≤ 1`, the selected best score is at least 33 (10 same-page + 20 x +
at least 3 y), so the correlator accepts a match and never emits the
no-correspondence verdict; the emitted verdict is the accepted-match
comparison of the selected candidate, whose `preserved` flag depends only
on that candidate's font name and size. -/
theorem C9_close_candidate_always_matches (st nc : Option String)
    (mods : List TextObject) (o m : TextObject) (hm : m ∈ mods)
    (hp : m.page = o.page) (hx : ratAbs (m.x - o.x) ≤ 1) :
    33 ≤ (selectBest (candidateScore o (computeExpected st nc o.content) st nc) mods).2 ∧
    ∃ m', (selectBest (candidateScore o (computeExpected st nc o.content) st nc) mods).1 =
        some m' ∧
      detectOne st nc mods o = matchedComparison o m' ∧
      (∀ k, (detectOne st nc mods o).fallbackReason ≠
        some (FallbackReason.noCorrespondence k)) ∧
      (detectOne st nc mods o).fontPreserved = fontPreservedFlag o m' ∧
      (detectOne st nc mods o).fontFallbackDetected = ! fontPreservedFlag o m' := by
  obtain ⟨v, hv, h33⟩ :=
    candidateScore_close o (computeExpected st nc o.content) st nc m hp hx
  have hmax := selectBest_max (candidateScore o (computeExpected st nc o.content) st nc)
    mods m v hm hv
  have h33' :
      33 ≤ (selectBest (candidateScore o (computeExpected st nc o.content) st nc) mods).2 :=
    le_trans h33 hmax
  refine ⟨h33', ?_⟩
  rcases hsel : selectBest (candidateScore o (computeExpected st nc o.content) st nc) mods
    with ⟨mo, s⟩
  have hs : (selectBest (candidateScore o (computeExpected st nc o.content) st nc) mods).2
      = s := by rw [hsel]
  cases mo with
  | none =>
    have h0 := selectBest_none _ mods s hsel
    omega
  | some m' =>
    have hacc := detectOne_accepted st nc mods o m' s hsel (by omega)
    refine ⟨m', by simp [hsel], hacc, ?_, ?_, ?_⟩
    · intro k
      rw [hacc]
      exact matchedComparison_reason_ne_noCorr o m' k
    · rw [hacc]
      rfl
    · rw [hacc]
      rfl

/-- C9 witness: the theorem at a concrete candidate with `|Δx| = 0.5` and
everything else off (distant y, doubled size, unrelated content, different
font). -/
theorem C9_close_candidate_always_matches_witness :
    33 ≤ (selectBest (candidateScore oC9 (computeExpected none none oC9.content) none none)
      [mC9]).2 ∧
    ∃ m', (selectBest (candidateScore oC9 (computeExpected none none oC9.content) none none)
        [mC9]).1 = some m' ∧
      detectOne none none [mC9] oC9 = matchedComparison oC9 m' ∧
      (∀ k, (detectOne none none [mC9] oC9).fallbackReason ≠
        some (FallbackReason.noCorrespondence k)) ∧
      (detectOne none none [mC9] oC9).fontPreserved = fontPreservedFlag oC9 m' ∧
      (detectOne none none [mC9] oC9).fontFallbackDetected = ! fontPreservedFlag oC9 m' :=
  C9_close_candidate_always_matches none none [mC9] oC9 mC9 (by simp) (by rfl)
    (by norm_num [ratAbs, oC9, mC9])

/-! ### C5: the font resolution ladder -/

/-- C5 counterexample: in an environment where every font load fails, the
resolver returns NO usable handle — `(none, "none")` (line 595) — rather
than always returning a usable font handle as the claim states.  (It still
does not raise: the function is total.) -/
theorem C5_counterexample_no_handle :
    getFontForTextObject deadEnvC5 "ArialMT" (fun _ => none) = (none, "none") ∧
    ((getFontForTextObject deadEnvC5 "ArialMT" (fun _ => none)).1).isSome = false := by
  constructor <;> decide

/-- C5 amended: the resolver never raises (every library call is guarded,
the function is total) and tries the ordered strategies — embedded
extraction, system lookup (files then direct name), curated mapping,
family patterns, generic Helvetica — with the first success winning (it
equals the first defined entry of the strategy ladder); it returns a
usable handle whenever the final generic-fallback load succeeds, but when
every load fails it returns no handle with source `"none"` instead of a
usable handle. -/
theorem C5_resolution_ladder (env : FontEnv) (n : String)
    (dict : String → Option ExtractedFont) :
    (getFontForTextObject env n dict =
      match firstSome (fontStrategyLadder env n dict) with
      | some p => (some p.1, p.2)
      | none => (none, "none")) ∧
    (env.loadName "helv" ≠ none → ((getFontForTextObject env n dict).1).isSome = true) ∧
    ((getFontForTextObject env n dict).1 = none →
      (getFontForTextObject env n dict).2 = "none" ∧ env.loadName "helv" = none) := by
  simp only [getFontForTextObject, fontStrategyLadder, firstSome]
  cases h1 : (match dict n with
    | some ef =>
      if pyTruthy ef.fontFilePath then env.loadFile (ef.fontFilePath.getD "") else none
    | none => none) with
  | some f => simp
  | none =>
    cases h2 : (if n ≠ "" then
        match firstLoadableFile env (env.systemFontPaths n) with
        | some f => some f
        | none => env.loadName n
      else none) with
    | some f => simp
    | none =>
      cases h3 : (match fontMapping n with
        | some code => env.loadName code
        | none => none) with
      | some f => simp
      | none =>
        cases h4 : firstLoadableName env (patternCandidates n) with
        | some f => simp
        | none =>
          cases h5 : env.loadName "helv" with
          | some f => simp
          | none => simp [h5]

/-- C5 witness: in an environment where only base-14 loads succeed, the
second conjunct applied with its hypothesis discharged concretely yields a
usable handle. -/
theorem C5_resolution_ladder_witness :
    ((getFontForTextObject base14EnvC5 "MyriadPro" (fun _ => none)).1).isSome = true :=
  (C5_resolution_ladder base14EnvC5 "MyriadPro" (fun _ => none)).2.1 (by decide)

end PdfCli
